import Mathlib

/-!
Shallow embedding of the business_bot repository core: preference
extraction and persona routing (src/agents/property_matcher/graph.py),
Bayut listing normalisation (src/business_bot/tools/bayut.py), map
enrichment (src/business_bot/tools/maps.py) and configuration
(src/business_bot/config.py).  Python dictionaries and JSON payloads are
modelled by the inductive type PyVal; fallible Python code is modelled
with Except, where the error string names the Python exception raised.
-/

namespace BusinessBot

/-! ### Python value model -/

/-- Model of a Python value as it occurs in the repository: None, bools,
ints, floats (modelled as rationals), strings, lists and string-keyed
dicts (association lists, first binding wins). -/
inductive PyVal where
  | pynone
  | pybool (b : Bool)
  | pyint (n : Int)
  | pyfloat (q : ℚ)
  | pystr (s : String)
  | pylist (xs : List PyVal)
  | pydict (kvs : List (String × PyVal))

/-- Python truthiness: bool(v). -/
def PyVal.truthy : PyVal → Bool
  | .pynone => false
  | .pybool b => b
  | .pyint n => n != 0
  | .pyfloat q => q != 0
  | .pystr s => s != ""
  | .pylist xs => !xs.isEmpty
  | .pydict kvs => !kvs.isEmpty

/-- Python identity test v is None. -/
def PyVal.isNone : PyVal → Bool
  | .pynone => true
  | _ => false

/-- Lookup of a key in a dict body (first binding wins, as keys are
unique in Python dicts). -/
def dictGet (kvs : List (String × PyVal)) (k : String) : Option PyVal :=
  (kvs.find? (fun kv => kv.1 == k)).map (fun kv => kv.2)

/-- Python d.get(k): the value, or None when the key is absent. -/
def dictGetOrNone (kvs : List (String × PyVal)) (k : String) : PyVal :=
  (dictGet kvs k).getD .pynone

/-- Python d.get(k, default). -/
def dictGetDefault (kvs : List (String × PyVal)) (k : String) (d : PyVal) : PyVal :=
  (dictGet kvs k).getD d

/-- Python a or b (returns the first truthy operand, else the last). -/
def pyOr (a b : PyVal) : PyVal := if a.truthy then a else b

/-- Python a or b or c. -/
def pyOr3 (a b c : PyVal) : PyVal := pyOr a (pyOr b c)

/-- Python v.get(k) where v may not be a dict: dictionaries return the
value or None, every other receiver raises AttributeError. -/
def pyGetAttrGet (v : PyVal) (k : String) : Except String PyVal :=
  match v with
  | .pydict kvs => .ok (dictGetOrNone kvs k)
  | _ => .error "AttributeError: object has no attribute get"

/-- Python str.isspace-style predicate for the \s character class
(ASCII fragment). -/
def pyIsSpace (c : Char) : Bool :=
  c == ' ' || c == '\t' || c == '\n' || c == '\r' || c == '\x0b' || c == '\x0c'

/-- Value of a string of decimal digits, as computed by Python int(). -/
def parseDigits (cs : List Char) : Nat :=
  cs.foldl (fun a c => a * 10 + (c.toNat - 48)) 0

/-- Characters kept by re.sub(r"[^0-9.]", "", value) in the budget code. -/
def isDigitOrDot (c : Char) : Bool := c.isDigit || c == '.'

/-- Python float() restricted to strings of digits and dots, the only
shapes fed to it by the budget-extraction code: at most one dot, at
least one digit overall.  Returns none where float() raises ValueError. -/
def parsePyFloat (cs : List Char) : Option ℚ :=
  if !cs.all isDigitOrDot then none
  else
    let ip := cs.takeWhile (fun c => c != '.')
    let rest := cs.dropWhile (fun c => c != '.')
    match rest with
    | [] => if cs.isEmpty then none else some ((parseDigits cs : ℚ))
    | _ :: fp =>
      if fp.any (fun c => c == '.') then none
      else if ip.isEmpty && fp.isEmpty then none
      else some ((parseDigits ip : ℚ) + (parseDigits fp : ℚ) / (10 : ℚ) ^ fp.length)

/-- Exponent part of a Python float literal, with optional sign. -/
def parseSignedExp (cs : List Char) : Option Int :=
  match cs with
  | '+' :: rest =>
    if !rest.isEmpty && rest.all Char.isDigit then some ((parseDigits rest : Int)) else none
  | '-' :: rest =>
    if !rest.isEmpty && rest.all Char.isDigit then some (-(parseDigits rest : Int)) else none
  | _ =>
    if !cs.isEmpty && cs.all Char.isDigit then some ((parseDigits cs : Int)) else none

/-- Unsigned Python float literal body: mantissa with optional e/E
exponent. -/
def parseUnsignedFloat (cs : List Char) : Option ℚ :=
  let mant := cs.takeWhile (fun c => c != 'e' && c != 'E')
  let rest := cs.dropWhile (fun c => c != 'e' && c != 'E')
  match rest with
  | [] => parsePyFloat mant
  | _ :: ex =>
    match parsePyFloat mant, parseSignedExp ex with
    | some m, some e => some (m * (10 : ℚ) ^ e)
    | _, _ => none

/-- Python float(s) for strings: strip surrounding whitespace, optional
sign, decimal mantissa with optional exponent (inf/nan and underscore
separators are outside the fragment the repository exercises). -/
def pyFloatOfString (s : String) : Option ℚ :=
  let cs := ((s.data.dropWhile pyIsSpace).reverse.dropWhile pyIsSpace).reverse
  match cs with
  | '+' :: rest => parseUnsignedFloat rest
  | '-' :: rest => (parseUnsignedFloat rest).map (fun q => -q)
  | _ => parseUnsignedFloat cs

/-- Python float(v) on an arbitrary value: ints, floats and bools
convert, strings are parsed, everything else raises (modelled as none,
matching the try/except TypeError-ValueError sites in the source). -/
def pyFloatCast : PyVal → Option ℚ
  | .pyint n => some ((n : ℚ))
  | .pyfloat q => some q
  | .pybool b => some (if b then 1 else 0)
  | .pystr s => pyFloatOfString s
  | _ => none

/-- Decimal digits of the fractional part of a rational in [0, 1),
truncated at the fuel bound (floats in the source are dyadic, so the
expansion is finite in practice). -/
def fracDigits : Nat → ℚ → String
  | 0, _ => ""
  | n + 1, q =>
    if q = 0 then ""
    else
      let d := (q * 10).floor
      toString d ++ fracDigits n (q * 10 - (d : ℚ))

/-- Rendering of a float value the way a Python f-string renders it
(sign, integer part, dot, fractional digits; "x.0" for integers). -/
def ratStr (q : ℚ) : String :=
  let sign := if q < 0 then "-" else ""
  let a := |q|
  let ip := a.floor
  let fs := fracDigits 30 (a - (ip : ℚ))
  sign ++ toString ip ++ "." ++ (if fs = "" then "0" else fs)

mutual

/-- Python repr() of a value. -/
def pyRepr : PyVal → String
  | .pynone => "None"
  | .pybool b => if b then "True" else "False"
  | .pyint n => toString n
  | .pyfloat q => ratStr q
  | .pystr s => "\x27" ++ s ++ "\x27"
  | .pylist xs => "[" ++ String.intercalate ", " (pyReprList xs) ++ "]"
  | .pydict kvs => "\x7b" ++ String.intercalate ", " (pyReprKVs kvs) ++ "\x7d"

/-- Helper for pyRepr: list elements. -/
def pyReprList : List PyVal → List String
  | [] => []
  | x :: xs => pyRepr x :: pyReprList xs

/-- Helper for pyRepr: dict entries. -/
def pyReprKVs : List (String × PyVal) → List String
  | [] => []
  | kv :: kvs => ("\x27" ++ kv.1 ++ "\x27: " ++ pyRepr kv.2) :: pyReprKVs kvs

end

/-- Python str(v): strings pass through, other values use repr. -/
def pyToStr : PyVal → String
  | .pystr s => s
  | v => pyRepr v

/-- Python round-half-to-even to an integer, as used by round() and by
the :,.0f format specifier. -/
def roundHalfEven (q : ℚ) : Int :=
  let f := q.floor
  let r := q - (f : ℚ)
  if r < 1 / 2 then f
  else if r > 1 / 2 then f + 1
  else if f % 2 = 0 then f else f + 1

/-- Python round(q, 1). -/
def roundTo1 (q : ℚ) : ℚ := ((roundHalfEven (q * 10) : ℚ)) / 10

/-- Helper inserting a thousands separator every three digits, working
on a reversed digit list. -/
def groupGo : Nat → List Char → List Char
  | _, [] => []
  | i, c :: rest =>
    if i ≠ 0 && i % 3 == 0 then ',' :: c :: groupGo (i + 1) rest
    else c :: groupGo (i + 1) rest

/-- Integer rendered with thousands separators, as by format spec ,.0f
applied after rounding. -/
def formatThousands (n : Int) : String :=
  let s := toString n.natAbs
  (if n < 0 then "-" else "") ++ String.mk ((groupGo 0 s.data.reverse).reverse)

/-- Python f"{q:,.0f}". -/
def formatFloat0f (q : ℚ) : String := formatThousands (roundHalfEven q)

/-- Python int() truncation toward zero of a float. -/
def pyInt (q : ℚ) : Int := if q < 0 then -((-q).floor) else q.floor

/-- Python str.lower(), characterwise (the repository only lowercases
ASCII text). -/
def pyLower (s : String) : String := String.mk (s.data.map Char.toLower)

/-- Decimal digit characters, the ASCII fragment of the regex class \d. -/
def digitChars : List Char := ['0', '1', '2', '3', '4', '5', '6', '7', '8', '9']

/-! ### Preference extraction (src/agents/property_matcher/graph.py) -/

/-- Preference record: the four keys the heuristic extractor in
_extract_preferences ever writes (bedrooms, budget_aed, locations,
property_type); an absent field models an absent dict key. -/
structure Prefs where
  bedrooms : Option Nat
  budget_aed : Option ℚ
  locations : Option (List String)
  property_type : Option String
deriving DecidableEq, Repr

/-- Empty preference dict. -/
def emptyPrefs : Prefs := ⟨none, none, none, none⟩

/-- re.search of the bedroom pattern (digits, optional whitespace, then
"bed" — the alternative "bedroom" is subsumed since "bed" is tried
first and nothing follows): leftmost match, returning int(group 1).
Scanning every suffix reproduces the leftmost-match semantics; the
greedy digit and whitespace runs never need to backtrack because a
shorter run would leave a digit or a space where "bed" is required. -/
def bedroomSearch : List Char → Option Nat
  | [] => none
  | c :: rest =>
    if c.isDigit then
      let ds := (c :: rest).takeWhile Char.isDigit
      let after := (c :: rest).dropWhile Char.isDigit
      let after2 := after.dropWhile pyIsSpace
      if ['b', 'e', 'd'].isPrefixOf after2 then some (parseDigits ds)
      else bedroomSearch rest
    else bedroomSearch rest

/-- Optional scale suffix of the budget pattern, alternatives tried in
source order m, million, k, aed; since "m" precedes "million" the
latter can never be the match. -/
def budgetSuffix (cs : List Char) : List Char :=
  if ['m'].isPrefixOf cs then ['m']
  else if ['m', 'i', 'l', 'l', 'i', 'o', 'n'].isPrefixOf cs then ['m', 'i', 'l', 'l', 'i', 'o', 'n']
  else if ['k'].isPrefixOf cs then ['k']
  else if ['a', 'e', 'd'].isPrefixOf cs then ['a', 'e', 'd']
  else []

/-- re.search of the budget pattern: group 1 is digits, then a greedy
run over [digits , .], then greedy whitespace, then an optional scale
suffix.  Every later part of the pattern is optional, so the search
succeeds at the first digit of the text; greedy runs never backtrack
because the classes are disjoint from what follows them. -/
def budgetGroupSearch : List Char → Option (List Char)
  | [] => none
  | c :: rest =>
    if c.isDigit then
      let ds := (c :: rest).takeWhile Char.isDigit
      let r1 := (c :: rest).dropWhile Char.isDigit
      let cls := r1.takeWhile (fun x => x.isDigit || x == ',' || x == '.')
      let r2 := r1.dropWhile (fun x => x.isDigit || x == ',' || x == '.')
      let sp := r2.takeWhile pyIsSpace
      let r3 := r2.dropWhile pyIsSpace
      some (ds ++ cls ++ sp ++ budgetSuffix r3)
    else budgetGroupSearch rest

/-- Python substring containment (pat in hay). -/
def containsSub (hay pat : List Char) : Bool :=
  match hay with
  | [] => pat.isEmpty
  | c :: t => pat.isPrefixOf (c :: t) || containsSub t pat

/-- Post-processing of the matched budget group: drop commas, branch on
the m/million and k suffixes, strip every character but digits and dots
and convert with float(), scaling accordingly.  float() failure
(several dots) raises ValueError, which the source does not catch. -/
def budgetValue (group : List Char) : Except String ℚ :=
  let value := group.filter (fun c => c != ',')
  let stripped := value.filter isDigitOrDot
  if value.getLast? == some 'm' || containsSub value ['m', 'i', 'l', 'l', 'i', 'o', 'n'] then
    match parsePyFloat stripped with
    | some q => .ok (q * 1000000)
    | none => .error "ValueError: could not convert string to float"
  else if value.getLast? == some 'k' then
    match parsePyFloat stripped with
    | some q => .ok (q * 1000)
    | none => .error "ValueError: could not convert string to float"
  else
    match parsePyFloat stripped with
    | some q => .ok q
    | none => .error "ValueError: could not convert string to float"

/-- Fixed gazetteer of location cues, in source order. -/
def gazetteer : List String :=
  ["dubai marina", "downtown", "jlt", "business bay", "palm",
   "dubai hills", "jumeirah", "arabian ranches"]

/-- Property-type keyword table, in source (dict-declaration) order. -/
def typeKeywords : List (String × String) :=
  [("apartment", "apartment"), ("villa", "villa"),
   ("townhouse", "townhouse"), ("penthouse", "penthouse")]

/-- Insertion into a lexicographically sorted list of strings. -/
def insertStr (x : String) : List String → List String
  | [] => [x]
  | y :: ys => if x ≤ y then x :: y :: ys else y :: insertStr x ys

/-- Python sorted() on strings (lexicographic by code point). -/
def sortStrs : List String → List String
  | [] => []
  | x :: xs => insertStr x (sortStrs xs)

/-- Deduplication, modelling the set() step before sorted(). -/
def dedupStr : List String → List String
  | [] => []
  | x :: xs => x :: (dedupStr xs).filter (fun y => y != x)

/-- _extract_preferences: heuristic extraction of bedrooms, budget,
locations and property type from lowercased text, merged over the
existing preferences.  The uncaught ValueError that float() can raise
on a malformed numeric token is surfaced as an error. -/
def extract_preferences (text : String) (existing : Prefs) : Except String Prefs :=
  let text_lower := (pyLower text).data
  let p1 :=
    match bedroomSearch text_lower with
    | some n => { existing with bedrooms := some n }
    | none => existing
  let budgetStep : Except String Prefs :=
    match budgetGroupSearch text_lower with
    | none => .ok p1
    | some g =>
      match budgetValue g with
      | .ok q => .ok { p1 with budget_aed := some q }
      | .error e => .error e
  match budgetStep with
  | .error e => .error e
  | .ok p2 =>
    let matched := gazetteer.filter (fun loc => containsSub text_lower loc.data)
    let p3 :=
      if matched.isEmpty then p2
      else { p2 with locations := some (sortStrs (dedupStr matched)) }
    let p4 :=
      match typeKeywords.find? (fun kw => containsSub text_lower kw.1.data) with
      | some kw => { p3 with property_type := some kw.2 }
      | none => p3
    .ok p4

/-- Truthiness of the whole preference dict (nonempty), as tested by
the leading conjunct of _preferences_complete. -/
def prefs_truthy_dict (p : Prefs) : Bool :=
  p.bedrooms.isSome || p.budget_aed.isSome || p.locations.isSome || p.property_type.isSome

/-- Python truthiness of preferences.get("bedrooms"). -/
def truthyNatOpt : Option Nat → Bool
  | none => false
  | some n => n != 0

/-- Python truthiness of preferences.get("budget_aed"). -/
def truthyRatOpt : Option ℚ → Bool
  | none => false
  | some q => q != 0

/-- Python truthiness of preferences.get("locations"). -/
def truthyListOpt : Option (List String) → Bool
  | none => false
  | some l => !l.isEmpty

/-- _preferences_complete: bool(preferences and bedrooms and budget_aed
and locations). -/
def preferences_complete (p : Prefs) : Bool :=
  prefs_truthy_dict p && truthyNatOpt p.bedrooms
    && truthyRatOpt p.budget_aed && truthyListOpt p.locations

/-- Routing decision taken at the end of _preference_elicitation_node:
next_action is "bayut_search" when preferences are complete, "end"
otherwise (and _route_next forwards next_action unchanged). -/
def next_after_elicitation (p : Prefs) : String :=
  if preferences_complete p then "bayut_search" else "end"

/-- User message of end-to-end scenario A in the specification. -/
def scenarioAMessage : String :=
  "Looking for a 2 bed apartment in Dubai Marina under 2.5m"

/-! ### Lead detection (EMAIL_REGEX / PHONE_REGEX, _extract_lead) -/

/-- Python \w (ASCII fragment): letters, digits, underscore. -/
def pyIsWordChar (c : Char) : Bool := c.isAlphanum || c == '_'

/-- Character class [A-Z0-9._%+-] of EMAIL_REGEX under IGNORECASE. -/
def emailLocalChar (c : Char) : Bool :=
  c.isAlpha || c.isDigit || c == '.' || c == '_' || c == '%' || c == '+' || c == '-'

/-- Character class [A-Z0-9.-] of the domain part under IGNORECASE. -/
def emailDomainChar (c : Char) : Bool :=
  c.isAlpha || c.isDigit || c == '.' || c == '-'

/-- Backtracking over the domain run of EMAIL_REGEX: the greedy
[A-Z0-9.-]+ part gives back characters until a literal dot followed by
at least two letters fits; k counts down over candidate lengths of the
part before the dot. -/
def emailDomainSplit (run2 : List Char) : Nat → Option (List Char)
  | 0 => none
  | k + 1 =>
    if k = 0 then none
    else
      match run2.drop k with
      | '.' :: tailc =>
        let letters := tailc.takeWhile Char.isAlpha
        if letters.length ≥ 2 then some (run2.take k ++ '.' :: letters)
        else emailDomainSplit run2 k
      | _ => emailDomainSplit run2 k

/-- re.search of EMAIL_REGEX: at each start position the greedy local
part must be followed directly by @ (shortening it cannot expose an @
since @ is outside the class), then the domain run is split by
backtracking.  Returns the matched text, scanning suffixes for the
leftmost match. -/
def emailSearch : List Char → Option (List Char)
  | [] => none
  | c :: rest =>
    (if emailLocalChar c then
      let run1 := (c :: rest).takeWhile emailLocalChar
      match (c :: rest).dropWhile emailLocalChar with
      | '@' :: afterAt =>
        let run2 := afterAt.takeWhile emailDomainChar
        match emailDomainSplit run2 run2.length with
        | some dom => some (run1 ++ '@' :: dom)
        | none => none
      | _ => none
    else none).orElse (fun _ => emailSearch rest)

/-- First branch of PHONE_REGEX at one position:
word-boundary, optional +, 97, 0 or 1, then 7 to 9 digits (greedy,
nothing follows so no backtracking).  prevWord says whether the
character before this position is a word character. -/
def phoneMatch1Core : List Char → Option (List Char)
  | '9' :: '7' :: c :: rest =>
    if c == '0' || c == '1' then
      let ds := rest.takeWhile Char.isDigit
      if ds.length ≥ 7 then some ('9' :: '7' :: c :: ds.take 9) else none
    else none
  | _ => none

/-- First branch of PHONE_REGEX including the boundary and the optional
plus sign: with a leading +, the boundary before the + needs a word
character on the left; without it, the leading 9 needs a non-word
character (or the string start) on the left. -/
def phoneMatch1 (prevWord : Bool) : List Char → Option (List Char)
  | '+' :: rest =>
    if prevWord then (phoneMatch1Core rest).map (fun m => '+' :: m) else none
  | cs =>
    if !prevWord then phoneMatch1Core cs else none

/-- Second branch of PHONE_REGEX at one position: word-boundary, 7 to
12 digits, word-boundary.  Matches exactly a maximal digit run of
length 7..12 whose neighbours are non-word characters or the ends:
backtracking inside a longer run always leaves a digit at the boundary
position, so such runs never match. -/
def phoneMatch2 (prevWord : Bool) (cs : List Char) : Option (List Char) :=
  match cs with
  | [] => none
  | c :: _ =>
    if c.isDigit && !prevWord then
      let run := cs.takeWhile Char.isDigit
      let next := (cs.dropWhile Char.isDigit).head?
      if 7 ≤ run.length && run.length ≤ 12
          && (match next with
              | none => true
              | some a => !pyIsWordChar a) then
        some run
      else none
    else none

/-- re.search of PHONE_REGEX: at each position the first alternative is
tried before the second; the leftmost position with a match wins. -/
def phoneSearchAux (prevWord : Bool) : List Char → Option (List Char)
  | [] => none
  | c :: rest =>
    ((phoneMatch1 prevWord (c :: rest)).orElse
      (fun _ => phoneMatch2 prevWord (c :: rest))).orElse
      (fun _ => phoneSearchAux (pyIsWordChar c) rest)

/-- re.search of PHONE_REGEX from the start of the string. -/
def phoneSearch (cs : List Char) : Option (List Char) :=
  phoneSearchAux false cs

/-- Contact record produced by _extract_lead. -/
structure Lead where
  source : String
  notes : String
  email : Option String
  phone : Option String
deriving DecidableEq, Repr

/-- _extract_lead: scan user messages newest first; the first one with
an email or phone match yields a Lead carrying the matches and the full
message text as notes. -/
def extract_lead (messages : List (String × String)) : Option Lead :=
  go messages.reverse
where
  /-- Scan over the reversed history. -/
  go : List (String × String) → Option Lead
  | [] => none
  | (role, content) :: rest =>
    if role != "user" then go rest
    else
      let em := emailSearch content.data
      let ph := phoneSearch content.data
      if em.isSome || ph.isSome then
        some ⟨"chat", content, em.map String.mk, ph.map String.mk⟩
      else go rest

/-! ### Persona nodes and routing (src/agents/property_matcher/graph.py) -/

/-- Listing dict produced by _synthesise_listings. -/
structure SynthListing where
  title : String
  location : String
  price_aed : Int
  bedrooms : Nat
  highlights : List String
deriving DecidableEq, Repr

/-- Python str.title(): the first character of each alphabetic run is
uppercased, the rest lowercased. -/
def pyTitleAux : Bool → List Char → List Char
  | _, [] => []
  | prevAlpha, c :: rest =>
    (if c.isAlpha then (if prevAlpha then c.toLower else c.toUpper) else c)
      :: pyTitleAux c.isAlpha rest

/-- Python s.title(). -/
def pyTitle (s : String) : String := String.mk (pyTitleAux false s.data)

/-- _synthesise_listings: deterministic listings built from the
preferences; defaults mirror the .get defaults of the source and the
step variable is computed (and, as in the source, never used). -/
def synthesise_listings (p : Prefs) : List SynthListing :=
  let locations :=
    match p.locations with
    | some (l :: ls) => l :: ls
    | _ => ["Dubai Marina"]
  let bedrooms := p.bedrooms.getD 2
  let budget := p.budget_aed.getD 2000000
  let property_type := p.property_type.getD "apartment"
  let _step : Int :=
    max (if !locations.isEmpty then (budget / (locations.length : ℚ)).floor
         else pyInt budget) 250000
  let suggestions :=
    (locations.take 3).enum.map (fun il =>
      { title := s!"{bedrooms}-bed {pyTitle property_type} in {pyTitle il.2}"
        location := pyTitle il.2
        price_aed := pyInt (min budget (budget - (il.1 : ℚ) * (1 / 10) * budget))
        bedrooms := bedrooms
        highlights := (["Developer incentives available", "Proximity to metro",
                        "Community amenities included"].take 2) : SynthListing })
  if suggestions.isEmpty then
    [{ title := s!"{bedrooms}-bed {pyTitle property_type} in Dubai Marina"
       location := "Dubai Marina"
       price_aed := pyInt budget
       bedrooms := bedrooms
       highlights := ["Sea view", "Walkable lifestyle"] }]
  else suggestions

/-- Routing expression of _bayut_search_node (line 261): next_action is
"concierge_follow_up" when listings are non-empty, else "end". -/
def searchRouteForListings (listings : List SynthListing) : String :=
  if listings.isEmpty then "end" else "concierge_follow_up"

/-- Shared conversation state flowing between the LangGraph nodes. -/
structure MState where
  messages : List (String × String)
  preferences : Prefs
  listings : List SynthListing
  lead : Option Lead
  feedback : Option String
  next_action : String
deriving DecidableEq, Repr

/-- _invoke_persona with llm = None: the deterministic fallback reply
built from the persona name and the latest user message truncated to
280 characters. -/
def invokePersonaFallback (personaName : String) (messages : List (String × String)) : String :=
  let lastUser :=
    ((messages.reverse.find? (fun m => m.1 == "user")).map (fun m => m.2)).getD ""
  s!"[{personaName}] Unable to reach the language model. Based on the latest message, here is a heuristic response: " ++
    String.mk (lastUser.data.take 280)

/-- _append_message. -/
def appendMessage (st : MState) (role content : String) : MState :=
  { st with messages := st.messages ++ [(role, content)] }

/-- _preference_elicitation_node with llm = None: extract from the last
user message, append the fallback reply, route on completeness. -/
def preference_elicitation_node (st : MState) : Except String MState := do
  let st1 ←
    match st.messages.reverse.find? (fun m => m.1 == "user") with
    | some m => do
      let p ← extract_preferences m.2 st.preferences
      pure { st with preferences := p }
    | none => pure st
  let st2 := appendMessage st1 "assistant" (invokePersonaFallback "Preference Specialist" st1.messages)
  pure { st2 with next_action := next_after_elicitation st2.preferences }

/-- _bayut_search_node with llm = None. -/
def bayut_search_node (st : MState) : MState :=
  let listings := synthesise_listings st.preferences
  let st1 := { st with listings := listings }
  let st2 := appendMessage st1 "assistant" (invokePersonaFallback "Bayut Scout" st1.messages)
  { st2 with next_action := searchRouteForListings listings }

/-- _concierge_node with llm = None: append the fallback reply, detect
a lead over the whole history, attach the empty-listings feedback note
when listings are empty, and route to end. -/
def concierge_node (st : MState) : MState :=
  let st1 := appendMessage st "assistant" (invokePersonaFallback "Concierge" st.messages)
  let st2 :=
    match extract_lead st1.messages with
    | some l => { st1 with lead := some l }
    | none => st1
  let st3 :=
    if st2.listings.isEmpty then
      { st2 with feedback := some "No listings available for the provided preferences." }
    else st2
  { st3 with next_action := "end" }

/-- Conditional-edge dispatch loop of the compiled graph: _route_next
reads next_action and the matching node runs; any other value (in
particular "end") terminates.  Fuel bounds the loop. -/
def runMachine : Nat → MState → Except String MState
  | 0, st => .ok st
  | n + 1, st =>
    match st.next_action with
    | "preference_elicitation" => do runMachine n (← preference_elicitation_node st)
    | "bayut_search" => runMachine n (bayut_search_node st)
    | "concierge_follow_up" => runMachine n (concierge_node st)
    | _ => .ok st

/-! ### Graph construction (build_property_matcher_graph) -/

/-- Keys of DEFAULT_PERSONAS, in declaration order. -/
def default_persona_keys : List String :=
  ["preference_elicitation", "bayut_search", "concierge_follow_up"]

/-- build_property_matcher_graph at the level of persona selection: the
persona map is the defaults updated with the overrides (key set is the
union); a truthy agent_selection is validated against the map and
rejected with ValueError when unknown keys are requested, a falsy one
(None or empty) selects the three defaults; the dead at-least-one
check of the source is kept.  The result is the list of selected
persona keys wired into the graph. -/
def build_property_matcher_graph (override_keys : List String)
    (agent_selection : Option (List String)) : Except String (List String) :=
  let persona_keys :=
    default_persona_keys ++ override_keys.filter (fun k => !default_persona_keys.contains k)
  let selectedStep : Except String (List String) :=
    match agent_selection with
    | some sel =>
      if !sel.isEmpty then
        let missing := sel.filter (fun k => !persona_keys.contains k)
        if !missing.isEmpty then
          .error ("Unknown personas requested: "
            ++ String.intercalate ", " (sortStrs (dedupStr missing)))
        else .ok sel
      else .ok default_persona_keys
    | none => .ok default_persona_keys
  match selectedStep with
  | .error e => .error e
  | .ok selected =>
    if selected.isEmpty then
      .error "At least one persona must be selected for the property matcher graph."
    else .ok selected

/-! ### Configuration (src/business_bot/config.py) -/

/-- Settings dataclass: the fields consumed by the maps module. -/
structure Settings where
  maps_provider : String
  mapbox_access_token : Option String
  mapbox_static_style : String
  mapbox_directions_profile : String

/-- Message of MissingMapCredentialError. -/
def missingTokenMsg : String :=
  "Mapbox access token is required but was not provided. Set the MAPBOX_ACCESS_TOKEN environment variable."

/-- Settings.require_mapbox_token: the token, or MissingMapCredentialError
(modelled as the error string) when it is unset or empty (falsy). -/
def Settings.require_mapbox_token (s : Settings) : Except String String :=
  match s.mapbox_access_token with
  | some t => if t == "" then .error missingTokenMsg else .ok t
  | none => .error missingTokenMsg

/-! ### Maps module (src/business_bot/tools/maps.py) -/

/-- Exceptions that can escape the maps helpers: MapServiceUnavailable,
and the uncaught TypeError / AttributeError / KeyError / IndexError that
malformed payloads or listings can trigger. -/
inductive MapsExc where
  | serviceUnavailable (msg : String)
  | attributeError (msg : String)
  | typeError (msg : String)
  | keyError (msg : String)
  | indexError (msg : String)
deriving DecidableEq, Repr

/-- Python len(v): defined for strings, lists and dicts, TypeError
otherwise. -/
def pyLen : PyVal → Except MapsExc Nat
  | .pystr s => .ok s.length
  | .pylist xs => .ok xs.length
  | .pydict kvs => .ok kvs.length
  | _ => .error (.typeError "object has no len")

/-- Python v[i] for a natural index: list indexing (IndexError when out
of range); our dicts are string-keyed so an integer subscript raises
KeyError; every other receiver raises TypeError. -/
def pySubscript (v : PyVal) (i : Nat) : Except MapsExc PyVal :=
  match v with
  | .pylist xs =>
    match xs.get? i with
    | some x => .ok x
    | none => .error (.indexError "list index out of range")
  | .pydict _ => .error (.keyError "integer key")
  | _ => .error (.typeError "object is not subscriptable")

/-- Python v.get(k) inside the maps module, where the receiver may be
an arbitrary JSON payload. -/
def pyGetAttrGetM (v : PyVal) (k : String) : Except MapsExc PyVal :=
  match v with
  | .pydict kvs => .ok (dictGetOrNone kvs k)
  | _ => .error (.attributeError "object has no attribute get")

/-- PointOfInterest dataclass. -/
structure PointOfInterest where
  name : String
  latitude : ℚ
  longitude : ℚ
  profile : Option String
deriving DecidableEq, Repr

/-- TravelTimeEstimate dataclass. -/
structure TravelTimeEstimate where
  name : String
  distance_meters : Option ℚ
  duration_minutes : Option ℚ
deriving DecidableEq, Repr

/-- MapEnrichmentResult dataclass; the listing field carries the
(possibly updated) listing dict body. -/
structure MapEnrichmentResult where
  listing : List (String × PyVal)
  geocoding : Option PyVal
  static_map_url : Option String
  travel_times : List TravelTimeEstimate
  fallback_message : Option String
  error : Option String

/-- Network oracle standing for the Mapbox HTTP endpoints: none models
a transport failure (requests.RequestException), some p the decoded
JSON payload. -/
structure MapboxNet where
  geocodeResp : ℚ → ℚ → Option PyVal
  matrixResp : String → List (ℚ × ℚ) → Option PyVal

/-- _is_mapbox_enabled. -/
def is_mapbox_enabled (s : Settings) : Bool :=
  pyLower s.maps_provider == "mapbox"

/-- _extract_coordinates: ordered probing of the geography / location /
coordinates field shapes, with Python or-chains, followed by float()
conversion guarded by try/except. -/
def extract_coordinates (listing : PyVal) : Option (ℚ × ℚ) :=
  if !listing.truthy then none
  else
    let geography :=
      match listing with
      | .pydict kvs => dictGetOrNone kvs "geography"
      | _ => .pynone
    let lat0 : PyVal :=
      match geography with
      | .pydict g => pyOr (dictGetOrNone g "lat") (dictGetOrNone g "latitude")
      | _ => .pynone
    let lon0 : PyVal :=
      match geography with
      | .pydict g =>
        pyOr3 (dictGetOrNone g "lng") (dictGetOrNone g "lon") (dictGetOrNone g "longitude")
      | _ => .pynone
    let (lat1, lon1) :=
      if lat0.isNone || lon0.isNone then
        let location :=
          match listing with
          | .pydict kvs => dictGetOrNone kvs "location"
          | _ => .pynone
        match location with
        | .pydict l =>
          (pyOr lat0 (pyOr (dictGetOrNone l "lat") (dictGetOrNone l "latitude")),
           pyOr lon0 (pyOr3 (dictGetOrNone l "lon") (dictGetOrNone l "lng")
             (dictGetOrNone l "longitude")))
        | _ => (lat0, lon0)
      else (lat0, lon0)
    let (lat2, lon2) :=
      if lat1.isNone || lon1.isNone then
        let coords :=
          match listing with
          | .pydict kvs => dictGetOrNone kvs "coordinates"
          | _ => .pynone
        match coords with
        | .pylist (c0 :: c1 :: _) => (pyOr lat1 c1, pyOr lon1 c0)
        | .pydict c =>
          (pyOr lat1 (pyOr (dictGetOrNone c "lat") (dictGetOrNone c "latitude")),
           pyOr lon1 (pyOr3 (dictGetOrNone c "lng") (dictGetOrNone c "lon")
             (dictGetOrNone c "longitude")))
        | _ => (lat1, lon1)
      else (lat1, lon1)
    if lat2.isNone || lon2.isNone then none
    else
      match pyFloatCast lat2, pyFloatCast lon2 with
      | some la, some lo => some (la, lo)
      | _, _ => none

/-- _require_mapbox_token: MissingMapCredentialError converted into
MapServiceUnavailable with the same message. -/
def require_mapbox_token_maps (s : Settings) : Except MapsExc String :=
  match s.require_mapbox_token with
  | .ok t => .ok t
  | .error m => .error (.serviceUnavailable m)

/-- _request_mapbox: disabled-provider check, token check, then the
network call (resp stands for the endpoint response); transport
failures become MapServiceUnavailable. -/
def request_mapbox (s : Settings) (resp : Option PyVal) : Except MapsExc PyVal :=
  if !is_mapbox_enabled s then
    .error (.serviceUnavailable "Mapbox provider is disabled in configuration.")
  else
    match require_mapbox_token_maps s with
    | .error e => .error e
    | .ok _ =>
      match resp with
      | none => .error (.serviceUnavailable "Unable to reach the map service at the moment.")
      | some p => .ok p

/-- geocode_listing_location: skip when the provider is disabled or the
listing has no coordinates; MapServiceUnavailable from the request is
swallowed to None; the features[0] access can raise on a malformed
payload shape (uncaught in the source). -/
def geocode_listing_location (s : Settings) (net : MapboxNet) (listing : PyVal) :
    Except MapsExc (Option PyVal) :=
  if !is_mapbox_enabled s then .ok none
  else
    match extract_coordinates listing with
    | none => .ok none
    | some (la, lo) =>
      match request_mapbox s (net.geocodeResp la lo) with
      | .error (.serviceUnavailable _) => .ok none
      | .error e => .error e
      | .ok payload => do
        let fRaw ← pyGetAttrGetM payload "features"
        let features := pyOr fRaw (.pylist [])
        if features.truthy then
          match features with
          | .pylist (x :: _) => pure (some x)
          | .pylist [] => pure none
          | _ => throw (.typeError "object is not subscriptable")
        else pure none

/-- generate_static_map_url with the default zoom, size, marker colour
and label of the source: None when the provider is disabled, otherwise
the static-map URL (the token check may raise MapServiceUnavailable). -/
def generate_static_map_url (s : Settings) (latitude longitude : ℚ) :
    Except MapsExc (Option String) :=
  if !is_mapbox_enabled s then .ok none
  else do
    let token ← require_mapbox_token_maps s
    let style := s.mapbox_static_style
    let marker := "pin-s-A+2F855A(" ++ ratStr longitude ++ "," ++ ratStr latitude ++ ")"
    let dimensions := "640x360"
    pure (some ("https://api.mapbox.com/styles/v1/" ++ style ++ "/static/" ++ marker ++ "/"
      ++ ratStr longitude ++ "," ++ ratStr latitude ++ ",14/" ++ dimensions
      ++ "@2x?access_token=" ++ token))

/-- Numeric operand of raw / 60 inside estimate_travel_times: ints,
floats and bools divide, anything else raises TypeError. -/
def pyNumeric : PyVal → Option ℚ
  | .pyint n => some ((n : ℚ))
  | .pyfloat q => some q
  | .pybool b => some (if b then 1 else 0)
  | _ => none

/-- Body of the per-POI loop of estimate_travel_times for one index:
reads durations[0][index] and distances[0][index] when present,
rounding to one decimal (minutes for durations). -/
def estimateForIndex (durations distances : PyVal) (index : Nat) (poi : PointOfInterest) :
    Except MapsExc TravelTimeEstimate := do
  let nDur ← pyLen durations
  let duration ←
    if nDur > 0 then do
      let d0 ← pySubscript durations 0
      let n0 ← pyLen d0
      if n0 > index then do
        let raw ← pySubscript d0 index
        if raw.isNone then pure none
        else
          match pyNumeric raw with
          | some q => pure (some (roundTo1 (q / 60)))
          | none => throw (.typeError "unsupported operand type for /")
      else pure none
    else pure none
  let nDis ← pyLen distances
  let distance ←
    if nDis > 0 then do
      let d0 ← pySubscript distances 0
      let n0 ← pyLen d0
      if n0 > index then do
        let raw ← pySubscript d0 index
        if raw.isNone then pure none
        else
          match pyNumeric raw with
          | some q => pure (some (roundTo1 q))
          | none => throw (.typeError "type not supported by round")
      else pure none
    else pure none
  pure ⟨poi.name, distance, duration⟩

/-- Loop of estimate_travel_times over enumerate(points_of_interest,
start=1). -/
def estimateLoop (durations distances : PyVal) :
    Nat → List PointOfInterest → Except MapsExc (List TravelTimeEstimate)
  | _, [] => .ok []
  | index, poi :: rest => do
    let e ← estimateForIndex durations distances index poi
    let es ← estimateLoop durations distances (index + 1) rest
    pure (e :: es)

/-- estimate_travel_times: empty when the provider is disabled or there
are no points of interest; MapServiceUnavailable from the matrix
request is swallowed to an empty list; otherwise the durations and
distances of the payload are decoded per point of interest. -/
def estimate_travel_times (s : Settings) (net : MapboxNet) (latitude longitude : ℚ)
    (points_of_interest : List PointOfInterest) (profile : Option String) :
    Except MapsExc (List TravelTimeEstimate) :=
  if !is_mapbox_enabled s || points_of_interest.isEmpty then .ok []
  else
    let prof := (profile.getD s.mapbox_directions_profile)
    let coords := (longitude, latitude) :: points_of_interest.map (fun p => (p.longitude, p.latitude))
    match request_mapbox s (net.matrixResp prof coords) with
    | .error (.serviceUnavailable _) => .ok []
    | .error e => .error e
    | .ok payload => do
      let dRaw ← pyGetAttrGetM payload "durations"
      let durations := pyOr dRaw (.pylist [])
      let sRaw ← pyGetAttrGetM payload "distances"
      let distances := pyOr sRaw (.pylist [])
      estimateLoop durations distances 1 points_of_interest

/-- Error message attached when a listing has no resolvable
coordinates. -/
def missingCoordsMsg : String :=
  "Missing coordinates on listing; unable to plot on map."

/-- Replacement or insertion of one key in a dict body, preserving the
position of an existing binding and appending a new one, as Python dict
assignment and update do. -/
def setKey : List (String × PyVal) → String → PyVal → List (String × PyVal)
  | [], k, v => [(k, v)]
  | kv :: rest, k, v =>
    if kv.1 == k then (kv.1, v) :: rest else kv :: setKey rest k v

/-- Python dict.update: fold the new bindings into the base dict. -/
def dictUpdate (base news : List (String × PyVal)) : List (String × PyVal) :=
  news.foldl (fun acc kv => setKey acc kv.1 kv.2) base

/-- Serialisation of a TravelTimeEstimate into the dict stored under
the travel_times key of the map entry. -/
def tteToPy (e : TravelTimeEstimate) : PyVal :=
  .pydict [("name", .pystr e.name),
           ("distance_meters", (e.distance_meters.map PyVal.pyfloat).getD .pynone),
           ("duration_minutes", (e.duration_minutes.map PyVal.pyfloat).getD .pynone)]

/-- Entries written into listing["map"] by
enrich_recommendations_with_maps, in source order. -/
def mapEntries (la lo : ℚ) (geocoding : Option PyVal) (static_map : Option String)
    (travel_times : List TravelTimeEstimate) (fallback : Option String) :
    List (String × PyVal) :=
  [("latitude", .pyfloat la), ("longitude", .pyfloat lo),
   ("geocoding", geocoding.getD .pynone),
   ("static_map_url", (static_map.map PyVal.pystr).getD .pynone),
   ("travel_times", .pylist (travel_times.map tteToPy)),
   ("fallback_message", (fallback.map PyVal.pystr).getD .pynone)]

/-- Per-item body of the loop in enrich_recommendations_with_maps: a
non-mapping item is replaced by an empty dict; without coordinates the
fallback result is returned and no downstream step is attempted; with
coordinates the listing is geocoded, the static map and travel times
are computed under a try that converts MapServiceUnavailable into an
error note, and the results are written into listing["map"]
(listing.setdefault followed by dict.update, which raises
AttributeError when a pre-existing map value is not a dict). -/
def enrichOne (s : Settings) (net : MapboxNet) (points_of_interest : List PointOfInterest)
    (fallback_message : String) (item : PyVal) : Except MapsExc MapEnrichmentResult :=
  let listing : List (String × PyVal) :=
    match item with
    | .pydict kvs => kvs
    | _ => []
  match extract_coordinates (.pydict listing) with
  | none => .ok ⟨listing, none, none, [], some fallback_message, some missingCoordsMsg⟩
  | some (la, lo) => do
    let geocoding ← geocode_listing_location s net (.pydict listing)
    let fallback0 : Option String := if geocoding.isNone then some fallback_message else none
    let (static_map, travel_times, err, fallback) ←
      match generate_static_map_url s la lo with
      | .error (.serviceUnavailable m) =>
        pure ((none : Option String), ([] : List TravelTimeEstimate), some m, some fallback_message)
      | .error e => throw e
      | .ok sm =>
        match estimate_travel_times s net la lo points_of_interest none with
        | .error (.serviceUnavailable m) => pure (sm, [], some m, some fallback_message)
        | .error e => throw e
        | .ok tt => pure (sm, tt, none, fallback0)
    let news := mapEntries la lo geocoding static_map travel_times fallback
    let listing2 ←
      match dictGet listing "map" with
      | none => pure (setKey listing "map" (.pydict (dictUpdate [] news)))
      | some (.pydict mkvs) => pure (setKey listing "map" (.pydict (dictUpdate mkvs news)))
      | some _ => throw (.attributeError "object has no attribute update")
    pure ⟨listing2, geocoding, static_map, travel_times, fallback, err⟩

/-- enrich_recommendations_with_maps: the per-item loop; an exception
thrown for one item aborts the whole call, as in the source. -/
def enrich_recommendations_with_maps (s : Settings) (net : MapboxNet)
    (recommendations : List PyVal) (points_of_interest : List PointOfInterest)
    (fallback_message : String) : Except MapsExc (List MapEnrichmentResult) :=
  match recommendations with
  | [] => .ok []
  | item :: rest => do
    let r ← enrichOne s net points_of_interest fallback_message item
    let rs ← enrich_recommendations_with_maps s net rest points_of_interest fallback_message
    pure (r :: rs)

/-! ### Listing normalisation (src/business_bot/tools/bayut.py) -/

/-- Canonical property card built by _create_property_card; fields that
the source leaves as raw lookups keep the PyVal they resolve to (None
when no candidate field is present). -/
structure PropertyCard where
  id : PyVal
  title : PyVal
  price : Option String
  location : Option String
  bedrooms : PyVal
  bathrooms : PyVal
  size_sqft : PyVal
  amenities : List String
  is_trucheck : Bool
  url : PyVal
  raw_reference : PyVal

/-- _format_price: None stays None; values float() accepts are grouped
with the currency code (default AED) and an optional frequency suffix;
values float() rejects are passed through str().  A truthy non-string
frequency raises AttributeError at frequency.replace, which the source
does not catch. -/
def format_price (value currency frequency : PyVal) : Except String (Option String) :=
  if value.isNone then .ok none
  else
    match pyFloatCast value with
    | none => .ok (some (pyToStr value))
    | some numeric =>
      let currency_code := if currency.truthy then currency else .pystr "AED"
      let base := pyToStr currency_code ++ " " ++ formatFloat0f numeric
      if frequency.truthy then
        match frequency with
        | .pystr fs => .ok (some (base ++ " / " ++ fs.replace "_" " "))
        | _ => .error "AttributeError: object has no attribute replace"
      else .ok (some base)

/-- Contribution of one location_tree item to the parts list. -/
def locationPartOf (item : PyVal) : Option String :=
  match item with
  | .pydict d =>
    let name := pyOr (dictGetOrNone d "name") (dictGetOrNone d "location")
    if name.truthy then some (pyToStr name) else none
  | .pystr s => some s
  | _ => none

/-- _format_location: the names along location_tree (or location),
joined with the separator literal of the source, with a textual
fallback field when no part resolves. -/
def format_location (listing : List (String × PyVal)) : Option String :=
  let location_tree :=
    pyOr3 (dictGetOrNone listing "location_tree") (dictGetOrNone listing "location") (.pylist [])
  let parts : List String :=
    match location_tree with
    | .pylist items => items.filterMap locationPartOf
    | .pydict d =>
      let name := pyOr (dictGetOrNone d "name") (dictGetOrNone d "location")
      if name.truthy then [pyToStr name] else []
    | _ => []
  let parts2 :=
    if parts.isEmpty then
      let textual :=
        pyOr (dictGetOrNone listing "location_title") (dictGetOrNone listing "display_location")
      if textual.truthy then [pyToStr textual] else []
    else parts
  if parts2.isEmpty then none else some (String.intercalate " â€¢ " parts2)

/-- Contribution of one amenities item. -/
def amenityOf (item : PyVal) : Option String :=
  match item with
  | .pydict d =>
    let label := pyOr3 (dictGetOrNone d "name") (dictGetOrNone d "label") (dictGetOrNone d "title")
    if label.truthy then some (pyToStr label) else none
  | .pystr s => some s
  | _ => none

/-- _extract_amenities. -/
def extract_amenities (listing : List (String × PyVal)) : List String :=
  let amenities_raw :=
    pyOr3 (dictGetOrNone listing "amenities") (dictGetOrNone listing "amenity_labels") (.pylist [])
  match amenities_raw with
  | .pylist items => items.filterMap amenityOf
  | _ => []

/-- Status strings accepted by the verification check. -/
def trucheckStatusSet : List String := ["truchecked", "approved", "verified", "true"]

/-- Value strings accepted by the boolean alias fields. -/
def trucheckAliasSet : List String := ["true", "yes", "approved", "verified"]

/-- Inspection of one boolean alias field of _extract_trucheck_status:
a bool or string value decides immediately, anything else falls
through. -/
def trucheckAlias (v : PyVal) : Option Bool :=
  match v with
  | .pybool b => some b
  | .pystr s => some (trucheckAliasSet.contains (pyLower s))
  | _ => none

/-- _extract_trucheck_status. -/
def extract_trucheck_status (listing : List (String × PyVal)) : Bool :=
  let verification := pyOr (dictGetOrNone listing "verification") (.pydict [])
  let fromStatus : Option Bool :=
    match verification with
    | .pydict d =>
      let status := pyOr (dictGetOrNone d "status") (dictGetOrNone d "state")
      match status with
      | .pystr s => some (trucheckStatusSet.contains (pyLower s))
      | .pybool b => some b
      | _ => none
    | _ => none
  match fromStatus with
  | some b => b
  | none =>
    match trucheckAlias (dictGetOrNone listing "is_trucheck") with
    | some b => b
    | none =>
      match trucheckAlias (dictGetOrNone listing "isTruChecked") with
      | some b => b
      | none =>
        match trucheckAlias (dictGetOrNone listing "is_truchecked") with
        | some b => b
        | none => false

/-- _create_property_card: the canonical card.  Two lookups can raise:
listing.get("price_detail", \x7b\x7d).get("currency") calls .get on
whatever the price_detail key holds (AttributeError when it is present
but not a mapping, including None), and (listing.get("meta", \x7b\x7d)
or \x7b\x7d).get("url") is only guarded against falsy values, so a
truthy non-mapping meta raises as well. -/
def create_property_card (listing : List (String × PyVal)) : Except String PropertyCard := do
  let price_value :=
    pyOr3 (dictGetOrNone listing "price") (dictGetOrNone listing "price_value")
      (dictGetOrNone listing "list_price")
  let currency ←
    (let c1 := dictGetOrNone listing "price_currency"
     if c1.truthy then pure c1
     else
       let c2 := dictGetOrNone listing "currency"
       if c2.truthy then pure c2
       else pyGetAttrGet (dictGetDefault listing "price_detail" (.pydict [])) "currency")
  let frequency := pyOr (dictGetOrNone listing "rent_frequency") (dictGetOrNone listing "frequency")
  let price_text ← format_price price_value currency frequency
  let location := format_location listing
  let amenities := extract_amenities listing
  let trucheck := extract_trucheck_status listing
  let url1 ← pyGetAttrGet (pyOr (dictGetDefault listing "meta" (.pydict [])) (.pydict [])) "url"
  pure
    { id := pyOr3 (dictGetOrNone listing "id") (dictGetOrNone listing "external_id")
        (dictGetOrNone listing "reference")
      title := pyOr (dictGetOrNone listing "title") (dictGetOrNone listing "name")
      price := price_text
      location := location
      bedrooms := pyOr (dictGetOrNone listing "rooms") (dictGetOrNone listing "bedrooms")
      bathrooms := pyOr (dictGetOrNone listing "baths") (dictGetOrNone listing "bathrooms")
      size_sqft := pyOr3 (dictGetOrNone listing "size") (dictGetOrNone listing "area")
        (dictGetOrNone listing "builtup_area")
      amenities := amenities
      is_trucheck := trucheck
      url := pyOr url1 (dictGetOrNone listing "url")
      raw_reference := pyOr (dictGetOrNone listing "reference")
        (dictGetOrNone listing "reference_number") }

/-! ### Concrete fixtures used by the theorems -/

/-- Network oracle on which every endpoint fails at the transport
level. -/
def trivialNet : MapboxNet := ⟨fun _ _ => none, fun _ _ => none⟩

/-- Settings with the maps provider switched away from Mapbox. -/
def disabledMapsSettings : Settings :=
  ⟨"none", none, "mapbox/streets-v12", "mapbox/driving"⟩

/-- Settings selecting Mapbox but with no access token configured. -/
def tokenlessMapboxSettings : Settings :=
  ⟨"mapbox", none, "mapbox/streets-v12", "mapbox/driving"⟩

/-- Repeated static-map calls within one process, modelling that the
source keeps no state between calls: the n-th call evaluates the very
same function of the unchanged settings. -/
def repeated_static_map_calls (s : Settings) (la lo : ℚ) (n : Nat) :
    List (Except MapsExc (Option String)) :=
  (List.range n).map (fun _ => generate_static_map_url s la lo)

/-- Conversation state directly after a hypothetical Search step that
produced zero listings: the listings are empty and next_action carries
the routing expression of _bayut_search_node evaluated at the empty
list.  The single user message contains a detectable phone number. -/
def c6State : MState :=
  { messages := [("user", "call me at 0501234567")]
    preferences := emptyPrefs
    listings := []
    lead := none
    feedback := none
    next_action := searchRouteForListings [] }

/-! ## Theorems -/

/-- Claim C1, counterexample: on the scenario-A message the extractor
sets budget_aed to 2.0, not 2500000 — the budget regex matches the
first numeric token of the text, which is the "2" of "2 bed" — so the
claimed preference record is not produced. -/
theorem c1_scenarioA_budget_counterexample :
    extract_preferences scenarioAMessage emptyPrefs =
      .ok ⟨some 2, some 2, some ["dubai marina"], some "apartment"⟩ ∧
    (some (2 : ℚ) : Option ℚ) ≠ some 2500000 :=
  ⟨rfl, by decide⟩

/-- Claim C1, amended: the scenario-A message yields bedrooms = 2,
property_type = "apartment", locations = ["dubai marina"] and
budget_aed = 2.0 (the first numeric token, not the 2.5m figure), and
the routing evaluated after the elicitation step still selects the
Search step because all three completeness fields are truthy. -/
theorem c1_scenarioA_amended :
    extract_preferences scenarioAMessage emptyPrefs =
      .ok ⟨some 2, some 2, some ["dubai marina"], some "apartment"⟩ ∧
    next_after_elicitation ⟨some 2, some 2, some ["dubai marina"], some "apartment"⟩ =
      "bayut_search" :=
  ⟨rfl, rfl⟩

/-- Claim C2, counterexample: with the maps provider configured away
from Mapbox, the travel-time estimator returns the empty list for an
origin and a point of interest roughly 10 km apart (25.0 vs 25.09
degrees latitude at longitude 55), so no estimate — in particular no
15.0-minute driving estimate — is produced; there is no great-circle
fallback in the code. -/
theorem c2_no_haversine_counterexample :
    estimate_travel_times disabledMapsSettings trivialNet 25 55
      [⟨"Dubai Mall", 2509 / 100, 55, none⟩] none = .ok [] :=
  rfl

/-- Claim C2, amended: whenever the configured maps provider is not
Mapbox, estimate_travel_times returns no estimates at all (the empty
list), for every network behaviour, origin, point-of-interest list and
profile. -/
theorem c2_disabled_provider_amended (s : Settings)
    (h : pyLower s.maps_provider ≠ "mapbox") (net : MapboxNet) (la lo : ℚ)
    (pois : List PointOfInterest) (profile : Option String) :
    estimate_travel_times s net la lo pois profile = .ok [] := by
  have he : is_mapbox_enabled s = false := by
    unfold is_mapbox_enabled
    exact beq_eq_false_iff_ne.mpr h
  unfold estimate_travel_times
  rw [he]
  simp

/-- Claim C2, witness for the amended theorem at a concrete disabled
configuration. -/
theorem c2_disabled_provider_amended_witness :
    estimate_travel_times disabledMapsSettings trivialNet 25 55
      [⟨"DXB", 25, 551 / 10, none⟩] (some "mapbox/walking") = .ok [] :=
  c2_disabled_provider_amended disabledMapsSettings (by decide) trivialNet 25 55
    [⟨"DXB", 25, 551 / 10, none⟩] (some "mapbox/walking")

/-- Claim C3: evaluating the card constructor at the failing input — a
listing whose price_detail key is present but None — reproduces the
AttributeError raised by listing.get("price_detail", dict()).get(
"currency"): the code throws instead of degrading the lookup to null,
contradicting the never-throw requirement. -/
theorem c3_price_detail_none_raises :
    create_property_card [("price_detail", PyVal.pynone)] =
      .error "AttributeError: object has no attribute get" :=
  rfl

/-- Claim C5: for every listing dict from which no coordinate shape is
resolvable, map enrichment returns the fallback result — null
geocoding, null static map, empty travel times, the fallback message,
and the missing-coordinates error — with no downstream step attempted,
for every settings, network behaviour and point-of-interest list. -/
theorem c5_missing_coordinates_fallback (s : Settings) (net : MapboxNet)
    (pois : List PointOfInterest) (fb : String) (kvs : List (String × PyVal))
    (h : extract_coordinates (.pydict kvs) = none) :
    enrich_recommendations_with_maps s net [.pydict kvs] pois fb =
      .ok [⟨kvs, none, none, [], some fb, some missingCoordsMsg⟩] := by
  simp [enrich_recommendations_with_maps, enrichOne, h, Bind.bind, Except.bind, Pure.pure,
    Except.pure]

/-- Claim C5, witness: a listing with only a title resolves no
coordinates and receives the fallback enrichment. -/
theorem c5_missing_coordinates_fallback_witness :
    enrich_recommendations_with_maps ⟨"mapbox", some "token", "sty", "prof"⟩ trivialNet
      [.pydict [("title", .pystr "x")]] [] "maps are unavailable" =
      .ok [⟨[("title", .pystr "x")], none, none, [], some "maps are unavailable",
            some missingCoordsMsg⟩] :=
  c5_missing_coordinates_fallback _ _ _ _ _ rfl

/-- Claim C7, counterexample: with the token missing, the first and
every later static-map call still reaches the provider code and raises
the (converted) missing-credential failure again — the provider is not
remembered as disabled. -/
theorem c7_retry_every_call_counterexample :
    generate_static_map_url tokenlessMapboxSettings 25 55 =
      .error (.serviceUnavailable missingTokenMsg) ∧
    generate_static_map_url tokenlessMapboxSettings 24 54 =
      .error (.serviceUnavailable missingTokenMsg) :=
  ⟨rfl, rfl⟩

/-- Claim C7, amended: a missing Mapbox credential raises the dedicated
MissingMapCredentialError message from Settings.require_mapbox_token;
the maps layer converts it per call into MapServiceUnavailable — the
same exception type as a transient failure, distinguished only by its
message — and nothing disables the provider: all n calls in a process
repeat the token check and fail identically. -/
theorem c7_missing_credential_amended (s : Settings)
    (hen : is_mapbox_enabled s = true)
    (htok : s.mapbox_access_token = none ∨ s.mapbox_access_token = some "")
    (la lo : ℚ) (n : Nat) :
    s.require_mapbox_token = .error missingTokenMsg ∧
    require_mapbox_token_maps s = .error (.serviceUnavailable missingTokenMsg) ∧
    repeated_static_map_calls s la lo n =
      List.replicate n (.error (.serviceUnavailable missingTokenMsg)) ∧
    missingTokenMsg ≠ "Unable to reach the map service at the moment." := by
  have h1 : s.require_mapbox_token = .error missingTokenMsg := by
    rcases htok with h | h <;> simp [Settings.require_mapbox_token, h]
  have h2 : require_mapbox_token_maps s = .error (.serviceUnavailable missingTokenMsg) := by
    simp [require_mapbox_token_maps, h1]
  have h3 : generate_static_map_url s la lo = .error (.serviceUnavailable missingTokenMsg) := by
    unfold generate_static_map_url
    rw [hen]
    simp [h2, Bind.bind, Except.bind]
  refine ⟨h1, h2, ?_, by decide⟩
  simp only [repeated_static_map_calls, h3]
  simp [List.map_const', List.length_range]

/-- Claim C7, witness for the amended theorem with two calls. -/
theorem c7_missing_credential_amended_witness :
    tokenlessMapboxSettings.require_mapbox_token = .error missingTokenMsg ∧
    require_mapbox_token_maps tokenlessMapboxSettings =
      .error (.serviceUnavailable missingTokenMsg) ∧
    repeated_static_map_calls tokenlessMapboxSettings 25 55 2 =
      List.replicate 2 (.error (.serviceUnavailable missingTokenMsg)) ∧
    missingTokenMsg ≠ "Unable to reach the map service at the moment." :=
  c7_missing_credential_amended tokenlessMapboxSettings rfl (Or.inl rfl) 25 55 2

/-- Digit characters are recognised by Char.isDigit. -/
theorem digitChars_isDigit (c : Char) (h : c ∈ digitChars) : c.isDigit = true := by
  fin_cases h <;> decide

/-- Digit characters are fixed by toLower. -/
theorem digitChars_toLower (c : Char) (h : c ∈ digitChars) : c.toLower = c := by
  fin_cases h <;> decide

/-- Digit characters are not commas. -/
theorem digitChars_ne_comma (c : Char) (h : c ∈ digitChars) : (c != ',') = true := by
  fin_cases h <;> decide

/-- Digit characters are not dots. -/
theorem digitChars_ne_dot (c : Char) (h : c ∈ digitChars) : (c != '.') = true := by
  fin_cases h <;> decide

/-- Digit characters survive the [0-9.] strip. -/
theorem digitChars_isDigitOrDot (c : Char) (h : c ∈ digitChars) : isDigitOrDot c = true := by
  fin_cases h <;> decide

/-- Span of a list all of whose elements satisfy the predicate. -/
theorem takeWhile_all (p : Char → Bool) (l : List Char) (hl : ∀ c ∈ l, p c = true) :
    l.takeWhile p = l ∧ l.dropWhile p = [] := by
  induction l with
  | nil => exact ⟨rfl, rfl⟩
  | cons c cs ih =>
    have hp := hl c (by simp)
    have ihh := ih (fun d hd => hl d (by simp [hd]))
    simp [List.takeWhile_cons, List.dropWhile_cons, hp, ihh.1, ihh.2]

/-- Span of an append whose left part satisfies the predicate and whose
right part starts (if at all) with a failing character. -/
theorem takeWhile_all_append (p : Char → Bool) (l r : List Char)
    (hl : ∀ c ∈ l, p c = true) (hr : ∀ x, r.head? = some x → p x = false) :
    (l ++ r).takeWhile p = l ∧ (l ++ r).dropWhile p = r := by
  induction l with
  | nil =>
    simp only [List.nil_append]
    cases r with
    | nil => exact ⟨rfl, rfl⟩
    | cons x xs =>
      have hx := hr x rfl
      simp [List.takeWhile_cons, List.dropWhile_cons, hx]
  | cons c cs ih =>
    have hp := hl c (by simp)
    have ihh := ih (fun d hd => hl d (by simp [hd]))
    simp [List.takeWhile_cons, List.dropWhile_cons, hp, ihh.1, ihh.2]

/-- A pattern containing a character absent from the text is not a
substring of the text. -/
theorem containsSub_eq_false (hay pat : List Char) (c : Char) (hc : c ∈ pat)
    (h : ∀ x ∈ hay, x ≠ c) : containsSub hay pat = false := by
  induction hay with
  | nil =>
    have hp : pat ≠ [] := fun hp => by subst hp; cases hc
    simp [containsSub, List.isEmpty_iff, hp]
  | cons a t ih =>
    have hpre : pat.isPrefixOf (a :: t) = false := by
      rcases hp : pat.isPrefixOf (a :: t) with _ | _
      · rfl
      · have hsub := (List.isPrefixOf_iff_prefix.mp hp).subset hc
        exact absurd rfl (h c hsub)
    simp only [containsSub, hpre, Bool.false_or]
    exact ih (fun x hx => h x (by simp [hx]))

/-- Every character of a digits-then-" bed" text is a digit, a space,
or one of b, e, d. -/
theorem text_char_ne (ds : List Char) (hds : ∀ c ∈ ds, c ∈ digitChars) (c : Char)
    (h1 : ∀ d ∈ digitChars, d ≠ c) (h2 : ' ' ≠ c) (h3 : 'b' ≠ c) (h4 : 'e' ≠ c)
    (h5 : 'd' ≠ c) : ∀ x ∈ ds ++ [' ', 'b', 'e', 'd'], x ≠ c := by
  intro x hx
  rcases List.mem_append.mp hx with h | h
  · exact h1 x (hds x h)
  · simp only [List.mem_cons, List.not_mem_nil, or_false] at h
    rcases h with rfl | rfl | rfl | rfl <;> assumption

/-- Patterns containing a character outside the digits-space-bed
alphabet never occur in a digits-then-" bed" text. -/
theorem no_match_of_char (ds : List Char) (hds : ∀ c ∈ ds, c ∈ digitChars)
    (pat : List Char) (c : Char) (hc : c ∈ pat) (h1 : ∀ d ∈ digitChars, d ≠ c)
    (h2 : ' ' ≠ c) (h3 : 'b' ≠ c) (h4 : 'e' ≠ c) (h5 : 'd' ≠ c) :
    containsSub (ds ++ [' ', 'b', 'e', 'd']) pat = false :=
  containsSub_eq_false _ _ c hc (text_char_ne ds hds c h1 h2 h3 h4 h5)

/-- Lowercasing fixes a digits-then-" bed" text. -/
theorem pyLower_digits_bed (ds : List Char) (hds : ∀ c ∈ ds, c ∈ digitChars) :
    (pyLower (String.mk (ds ++ [' ', 'b', 'e', 'd']))).data = ds ++ [' ', 'b', 'e', 'd'] := by
  show (ds ++ [' ', 'b', 'e', 'd']).map Char.toLower = ds ++ [' ', 'b', 'e', 'd']
  rw [List.map_append]
  have h1 : ds.map Char.toLower = ds := by
    induction ds with
    | nil => rfl
    | cons c cs ih =>
      have := digitChars_toLower c (hds c (by simp))
      simp only [List.map_cons, this, List.cons.injEq, true_and]
      exact ih (fun d hd => hds d (by simp [hd]))
  rw [h1]
  rfl

/-- The bedroom regex on a digits-then-" bed" text matches at position
zero and captures the whole digit run. -/
theorem bedroomSearch_digits_bed (ds : List Char) (hne : ds ≠ [])
    (hds : ∀ c ∈ ds, c ∈ digitChars) :
    bedroomSearch (ds ++ [' ', 'b', 'e', 'd']) = some (parseDigits ds) := by
  cases ds with
  | nil => exact absurd rfl hne
  | cons d dt =>
    have hdd : d.isDigit = true := digitChars_isDigit d (hds d (by simp))
    have hspan := takeWhile_all_append Char.isDigit (d :: dt) [' ', 'b', 'e', 'd']
      (fun c hc => digitChars_isDigit c (hds c hc)) (fun x hx => by
        simp only [List.head?_cons, Option.some.injEq] at hx
        subst hx
        decide)
    have h1 : (d :: (dt ++ [' ', 'b', 'e', 'd'])).takeWhile Char.isDigit = d :: dt := by
      rw [← List.cons_append]
      exact hspan.1
    have h2 : (d :: (dt ++ [' ', 'b', 'e', 'd'])).dropWhile Char.isDigit = [' ', 'b', 'e', 'd'] := by
      rw [← List.cons_append]
      exact hspan.2
    simp [bedroomSearch, hdd, h1, h2, List.cons_append]
    intro hpre
    exact absurd (by decide) hpre

/-- The budget regex on a digits-then-" bed" text captures the digit
run followed by the single space (no class run, no scale suffix). -/
theorem budgetGroupSearch_digits_bed (ds : List Char) (hne : ds ≠ [])
    (hds : ∀ c ∈ ds, c ∈ digitChars) :
    budgetGroupSearch (ds ++ [' ', 'b', 'e', 'd']) = some (ds ++ [' ']) := by
  cases ds with
  | nil => exact absurd rfl hne
  | cons d dt =>
    have hdd : d.isDigit = true := digitChars_isDigit d (hds d (by simp))
    have hspan := takeWhile_all_append Char.isDigit (d :: dt) [' ', 'b', 'e', 'd']
      (fun c hc => digitChars_isDigit c (hds c hc)) (fun x hx => by
        simp only [List.head?_cons, Option.some.injEq] at hx
        subst hx
        decide)
    have h1 : (d :: (dt ++ [' ', 'b', 'e', 'd'])).takeWhile Char.isDigit = d :: dt := by
      rw [← List.cons_append]
      exact hspan.1
    have h2 : (d :: (dt ++ [' ', 'b', 'e', 'd'])).dropWhile Char.isDigit = [' ', 'b', 'e', 'd'] := by
      rw [← List.cons_append]
      exact hspan.2
    simp [budgetGroupSearch, hdd, h1, h2, List.cons_append, budgetSuffix]
    decide

/-- The post-processing of the captured budget group "digits space"
parses the digits with no scaling. -/
theorem budgetValue_digits_space (ds : List Char) (hne : ds ≠ [])
    (hds : ∀ c ∈ ds, c ∈ digitChars) :
    budgetValue (ds ++ [' ']) = .ok ((parseDigits ds : ℚ)) := by
  have hvfilter : (ds ++ [' ']).filter (fun c => c != ',') = ds ++ [' '] := by
    rw [List.filter_eq_self]
    intro x hx
    rcases List.mem_append.mp hx with h | h
    · exact digitChars_ne_comma x (hds x h)
    · simp only [List.mem_cons, List.not_mem_nil, or_false] at h
      subst h
      decide
  have hstrip : (ds ++ [' ']).filter isDigitOrDot = ds := by
    rw [List.filter_append]
    have hl : ds.filter isDigitOrDot = ds :=
      List.filter_eq_self.mpr (fun x hx => digitChars_isDigitOrDot x (hds x hx))
    have hr : [' '].filter isDigitOrDot = [] := by decide
    rw [hl, hr, List.append_nil]
  have hlast : (ds ++ [' ']).getLast? = some ' ' := List.getLast?_concat ds
  have hm : ((ds ++ [' ']).getLast? == some 'm') = false := by rw [hlast]; decide
  have hk : ((ds ++ [' ']).getLast? == some 'k') = false := by rw [hlast]; decide
  have hnm : containsSub (ds ++ [' ']) ['m', 'i', 'l', 'l', 'i', 'o', 'n'] = false := by
    refine containsSub_eq_false _ _ 'm' (by decide) ?_
    intro x hx
    rcases List.mem_append.mp hx with h | h
    · have hdig := digitChars_isDigit x (hds x h)
      intro hxm
      subst hxm
      exact absurd hdig (by decide)
    · simp only [List.mem_cons, List.not_mem_nil, or_false] at h
      subst h
      decide
  have hparse : parsePyFloat ds = some ((parseDigits ds : ℚ)) := by
    have hall : ds.all isDigitOrDot = true :=
      List.all_eq_true.mpr (fun x hx => digitChars_isDigitOrDot x (hds x hx))
    have hspan := takeWhile_all (fun c => c != '.') ds
      (fun c hc => digitChars_ne_dot c (hds c hc))
    have hie : ds.isEmpty = false := by
      cases ds with
      | nil => exact absurd rfl hne
      | cons a t => rfl
    simp [parsePyFloat, hall, hspan.1, hspan.2, hie]
  simp only [budgetValue, hvfilter, hstrip, hm, hk, hnm, Bool.or_false, Bool.false_or,
    if_false, hparse]
  rfl

/-- Claim C4, counterexample: extracting from the text "3 bed" with a
prior budget of 1000000 overwrites the budget with 3.0 — the bedroom
number is itself the first numeric token, so it is captured as a
budget cue — refuting the claim that prior budget is preserved. -/
theorem c4_budget_overwritten_counterexample :
    extract_preferences "3 bed" ⟨none, some 1000000, some ["downtown"], some "villa"⟩ =
      .ok ⟨some 3, some 3, some ["downtown"], some "villa"⟩ ∧
    (some (3 : ℚ) : Option ℚ) ≠ some 1000000 :=
  ⟨rfl, by decide⟩

/-- No gazetteer entry occurs in a digits-then-" bed" text. -/
theorem gazetteer_no_match (ds : List Char) (hds : ∀ c ∈ ds, c ∈ digitChars) :
    gazetteer.filter
      (fun loc => containsSub (ds ++ [' ', 'b', 'e', 'd']) loc.data) = [] := by
  rw [List.filter_eq_nil_iff]
  intro loc hloc
  fin_cases hloc
  · intro hcon
    rw [no_match_of_char ds hds "dubai marina".data 'u' (by decide) (by decide) (by decide)
      (by decide) (by decide) (by decide)] at hcon
    cases hcon
  · intro hcon
    rw [no_match_of_char ds hds "downtown".data 'o' (by decide) (by decide) (by decide)
      (by decide) (by decide) (by decide)] at hcon
    cases hcon
  · intro hcon
    rw [no_match_of_char ds hds "jlt".data 'j' (by decide) (by decide) (by decide)
      (by decide) (by decide) (by decide)] at hcon
    cases hcon
  · intro hcon
    rw [no_match_of_char ds hds "business bay".data 'u' (by decide) (by decide) (by decide)
      (by decide) (by decide) (by decide)] at hcon
    cases hcon
  · intro hcon
    rw [no_match_of_char ds hds "palm".data 'p' (by decide) (by decide) (by decide)
      (by decide) (by decide) (by decide)] at hcon
    cases hcon
  · intro hcon
    rw [no_match_of_char ds hds "dubai hills".data 'u' (by decide) (by decide) (by decide)
      (by decide) (by decide) (by decide)] at hcon
    cases hcon
  · intro hcon
    rw [no_match_of_char ds hds "jumeirah".data 'j' (by decide) (by decide) (by decide)
      (by decide) (by decide) (by decide)] at hcon
    cases hcon
  · intro hcon
    rw [no_match_of_char ds hds "arabian ranches".data 'r' (by decide) (by decide) (by decide)
      (by decide) (by decide) (by decide)] at hcon
    cases hcon

/-- No property-type keyword occurs in a digits-then-" bed" text. -/
theorem typeKeywords_no_match (ds : List Char) (hds : ∀ c ∈ ds, c ∈ digitChars) :
    typeKeywords.find?
      (fun kw => containsSub (ds ++ [' ', 'b', 'e', 'd']) kw.1.data) = none := by
  rw [List.find?_eq_none]
  intro kw hkw
  fin_cases hkw
  · intro hcon
    rw [no_match_of_char ds hds "apartment".data 'a' (by decide) (by decide) (by decide)
      (by decide) (by decide) (by decide)] at hcon
    cases hcon
  · intro hcon
    rw [no_match_of_char ds hds "villa".data 'v' (by decide) (by decide) (by decide)
      (by decide) (by decide) (by decide)] at hcon
    cases hcon
  · intro hcon
    rw [no_match_of_char ds hds "townhouse".data 't' (by decide) (by decide) (by decide)
      (by decide) (by decide) (by decide)] at hcon
    cases hcon
  · intro hcon
    rw [no_match_of_char ds hds "penthouse".data 'p' (by decide) (by decide) (by decide)
      (by decide) (by decide) (by decide)] at hcon
    cases hcon

/-- Claim C4, amended: for every non-empty digit string N and every
prior preference record, extracting from the text "N bed" sets the
bedrooms key to N, leaves the prior locations and property-type values
unchanged (the text contains no location or type cue), but also
overwrites the budget with N — the bedroom number is the first numeric
token and therefore matches the budget pattern. -/
theorem c4_bed_extraction_amended (ds : List Char) (hne : ds ≠ [])
    (hds : ∀ c ∈ ds, c ∈ digitChars) (existing : Prefs) :
    extract_preferences (String.mk (ds ++ [' ', 'b', 'e', 'd'])) existing =
      .ok { existing with bedrooms := some (parseDigits ds),
                          budget_aed := some ((parseDigits ds : ℚ)) } := by
  simp only [extract_preferences, pyLower_digits_bed ds hds,
    bedroomSearch_digits_bed ds hne hds, budgetGroupSearch_digits_bed ds hne hds,
    budgetValue_digits_space ds hne hds, gazetteer_no_match ds hds,
    typeKeywords_no_match ds hds]
  rfl

/-- Claim C4, witness: the amended theorem at the text "2 bed" with a
prior budget, location and property type. -/
theorem c4_bed_extraction_amended_witness :
    extract_preferences (String.mk (['2'] ++ [' ', 'b', 'e', 'd']))
      ⟨none, some 9, some ["palm"], some "villa"⟩ =
      .ok { (⟨none, some 9, some ["palm"], some "villa"⟩ : Prefs) with
            bedrooms := some (parseDigits ['2']),
            budget_aed := some ((parseDigits ['2'] : ℚ)) } :=
  c4_bed_extraction_amended ['2'] (by decide) (by decide)
    ⟨none, some 9, some ["palm"], some "villa"⟩

/-- Claim C6: evaluation of the code at the zero-listings state.  The
search routing sends an empty listing set straight to End, so the run
from that state terminates at once: no Feedback note is recorded and no
lead is attached, although the concierge node — had it run — would have
recorded the empty-listings Feedback note and detected the phone lead
present in the history.  Moreover the synthesiser never returns an
empty listing set, so the zero-listings scenario cannot even arise from
the search node itself. -/
theorem c6_zero_listings_skip_concierge :
    (∀ p : Prefs, synthesise_listings p ≠ []) ∧
    searchRouteForListings [] = "end" ∧
    runMachine 5 c6State = .ok c6State ∧
    c6State.feedback = none ∧
    c6State.lead = none ∧
    (extract_lead c6State.messages).isSome = true ∧
    (concierge_node c6State).feedback =
      some "No listings available for the provided preferences." ∧
    (concierge_node c6State).lead.isSome = true := by
  refine ⟨?_, rfl, rfl, rfl, rfl, rfl, rfl, rfl⟩
  intro p h
  simp only [synthesise_listings] at h
  split at h
  · exact (List.cons_ne_nil _ _) h
  · next hcond => exact hcond (by rw [h]; rfl)

/-- Lookup after a single-key write: the written key reads back the new
value, every other key is untouched. -/
theorem dictGet_setKey (kvs : List (String × PyVal)) (k : String) (v : PyVal) (j : String) :
    dictGet (setKey kvs k v) j = if j = k then some v else dictGet kvs j := by
  induction kvs with
  | nil =>
    by_cases h : j = k
    · subst h
      simp [setKey, dictGet]
    · have hb : (k == j) = false := beq_eq_false_iff_ne.mpr (Ne.symm h)
      simp [setKey, dictGet, List.find?, hb, h]
  | cons kv rest ih =>
    by_cases h1 : kv.1 = k
    · have hb1 : (kv.1 == k) = true := beq_iff_eq.mpr h1
      by_cases h2 : j = k
      · subst h2
        have : (kv.1 == j) = true := beq_iff_eq.mpr h1
        simp [setKey, dictGet, List.find?, hb1, this]
      · have : (kv.1 == j) = false := beq_eq_false_iff_ne.mpr (fun he => h2 (he ▸ h1 ▸ rfl))
        simp [setKey, dictGet, List.find?, hb1, this, h2]
    · have hb1 : (kv.1 == k) = false := beq_eq_false_iff_ne.mpr h1
      by_cases h3 : kv.1 = j
      · have hbj : (kv.1 == j) = true := beq_iff_eq.mpr h3
        have hjk : ¬ j = k := fun he => h1 (h3.trans he)
        simp [setKey, dictGet, List.find?, hb1, hbj, hjk]
      · have hbj : (kv.1 == j) = false := beq_eq_false_iff_ne.mpr h3
        have ih2 := ih
        simp only [dictGet, List.find?] at ih2
        simp [setKey, dictGet, List.find?, hb1, hbj, ih2]

/-- The six map entries read back from the updated map dict: latitude
and longitude hold the coordinates, and all six keys are present. -/
theorem dictGet_update_news (base : List (String × PyVal)) (la lo : ℚ) (g : Option PyVal)
    (sm : Option String) (tt : List TravelTimeEstimate) (fb2 : Option String) :
    dictGet (dictUpdate base (mapEntries la lo g sm tt fb2)) "latitude" =
      some (.pyfloat la) ∧
    dictGet (dictUpdate base (mapEntries la lo g sm tt fb2)) "longitude" =
      some (.pyfloat lo) ∧
    (dictGet (dictUpdate base (mapEntries la lo g sm tt fb2)) "geocoding").isSome = true ∧
    (dictGet (dictUpdate base (mapEntries la lo g sm tt fb2)) "static_map_url").isSome = true ∧
    (dictGet (dictUpdate base (mapEntries la lo g sm tt fb2)) "travel_times").isSome = true ∧
    (dictGet (dictUpdate base (mapEntries la lo g sm tt fb2)) "fallback_message").isSome
      = true := by
  simp only [dictUpdate, mapEntries, List.foldl]
  refine ⟨?_, ?_, ?_, ?_, ?_, ?_⟩ <;>
    simp [dictGet_setKey]

/-- Shape of the per-listing result in the coordinates branch: whatever
the geocoding, static-map, travel-time and fallback values were, the
listing carried by the result is the input listing with the map key
set, and all other keys read back unchanged. -/
theorem c10_finish (kvs base : List (String × PyVal)) (la lo : ℚ) (g : Option PyVal)
    (sm : Option String) (tt : List TravelTimeEstimate) (fb2 : Option String)
    (r : MapEnrichmentResult)
    (hr : r.listing = setKey kvs "map" (.pydict (dictUpdate base (mapEntries la lo g sm tt fb2)))) :
    (∃ m, dictGet r.listing "map" = some (.pydict m) ∧
      dictGet m "latitude" = some (.pyfloat la) ∧
      dictGet m "longitude" = some (.pyfloat lo) ∧
      (dictGet m "geocoding").isSome = true ∧
      (dictGet m "static_map_url").isSome = true ∧
      (dictGet m "travel_times").isSome = true ∧
      (dictGet m "fallback_message").isSome = true) ∧
    (∀ k, k ≠ "map" → dictGet r.listing k = dictGet kvs k) := by
  constructor
  · refine ⟨dictUpdate base (mapEntries la lo g sm tt fb2), ?_,
      (dictGet_update_news base la lo g sm tt fb2).1,
      (dictGet_update_news base la lo g sm tt fb2).2.1,
      (dictGet_update_news base la lo g sm tt fb2).2.2.1,
      (dictGet_update_news base la lo g sm tt fb2).2.2.2.1,
      (dictGet_update_news base la lo g sm tt fb2).2.2.2.2.1,
      (dictGet_update_news base la lo g sm tt fb2).2.2.2.2.2⟩
    rw [hr, dictGet_setKey]
    simp
  · intro k hk
    rw [hr, dictGet_setKey, if_neg hk]

/-- Claim C10, counterexample: a listing with resolvable coordinates
whose pre-existing map key holds a non-mapping value makes the
enrichment raise AttributeError at listing_map.update instead of
writing the map data, so the claim does not hold for every listing
with resolvable coordinates. -/
theorem c10_nonmapping_map_key_counterexample :
    enrich_recommendations_with_maps disabledMapsSettings trivialNet
      [.pydict [("coordinates", .pylist [.pyfloat 55, .pyfloat 25]), ("map", .pyint 5)]]
      [] "fb" =
      .error (.attributeError "object has no attribute update") :=
  rfl

/-- Claim C10, amended: for every listing with resolvable coordinates
on which the enrichment returns normally, the result carries the same
listing with a map key written into it — a dict holding the latitude
and longitude together with the geocoding, static_map_url,
travel_times and fallback_message entries — and every other key of the
listing reads back unchanged.  (Enrichment does not return normally
for every such listing: a pre-existing non-mapping map value raises,
see the counterexample.) -/
theorem c10_map_key_written_amended (s : Settings) (net : MapboxNet)
    (pois : List PointOfInterest) (fb : String) (kvs : List (String × PyVal))
    (la lo : ℚ) (rs : List MapEnrichmentResult)
    (hc : extract_coordinates (.pydict kvs) = some (la, lo))
    (hok : enrich_recommendations_with_maps s net [.pydict kvs] pois fb = .ok rs) :
    ∃ r, rs = [r] ∧
      (∃ m, dictGet r.listing "map" = some (.pydict m) ∧
        dictGet m "latitude" = some (.pyfloat la) ∧
        dictGet m "longitude" = some (.pyfloat lo) ∧
        (dictGet m "geocoding").isSome = true ∧
        (dictGet m "static_map_url").isSome = true ∧
        (dictGet m "travel_times").isSome = true ∧
        (dictGet m "fallback_message").isSome = true) ∧
      (∀ k, k ≠ "map" → dictGet r.listing k = dictGet kvs k) := by
  cases henr : enrichOne s net pois fb (.pydict kvs) with
  | error e =>
    simp [enrich_recommendations_with_maps, henr, Bind.bind, Except.bind] at hok
  | ok r =>
    have hrs : rs = [r] := by
      simp [enrich_recommendations_with_maps, henr, Bind.bind, Except.bind, Pure.pure,
        Except.pure] at hok
      exact hok.symm
    refine ⟨r, hrs, ?_⟩
    unfold enrichOne at henr
    simp only [hc, Bind.bind, Except.bind] at henr
    cases hg : geocode_listing_location s net (.pydict kvs) with
    | error e =>
      rw [hg] at henr
      simp at henr
    | ok g =>
      rw [hg] at henr
      simp only [] at henr
      cases hsm : generate_static_map_url s la lo with
      | error e =>
        rw [hsm] at henr
        cases e with
        | serviceUnavailable m =>
          simp only [Pure.pure, Except.pure] at henr
          cases hmg : dictGet kvs "map" with
          | none =>
            rw [hmg] at henr
            simp only [Pure.pure, Except.pure, Except.ok.injEq] at henr
            exact c10_finish kvs [] la lo g none [] (some fb) r (by rw [← henr])
          | some v =>
            rw [hmg] at henr
            cases v with
            | pynone => cases henr
            | pybool b => cases henr
            | pyint n => cases henr
            | pyfloat q => cases henr
            | pystr st => cases henr
            | pylist xs => cases henr
            | pydict mkvs =>
              simp only [Pure.pure, Except.pure, Except.ok.injEq] at henr
              exact c10_finish kvs mkvs la lo g none [] (some fb) r (by rw [← henr])
        | attributeError m => simp at henr
        | typeError m => simp at henr
        | keyError m => simp at henr
        | indexError m => simp at henr
      | ok sm =>
        rw [hsm] at henr
        cases hest : estimate_travel_times s net la lo pois none with
        | error e =>
          rw [hest] at henr
          cases e with
          | serviceUnavailable m =>
            simp only [Pure.pure, Except.pure] at henr
            cases hmg : dictGet kvs "map" with
            | none =>
              rw [hmg] at henr
              simp only [Pure.pure, Except.pure, Except.ok.injEq] at henr
              exact c10_finish kvs [] la lo g sm [] (some fb) r (by rw [← henr])
            | some v =>
              rw [hmg] at henr
              cases v with
              | pynone => cases henr
              | pybool b => cases henr
              | pyint n => cases henr
              | pyfloat q => cases henr
              | pystr st => cases henr
              | pylist xs => cases henr
              | pydict mkvs =>
                simp only [Pure.pure, Except.pure, Except.ok.injEq] at henr
                exact c10_finish kvs mkvs la lo g sm [] (some fb) r (by rw [← henr])
          | attributeError m => simp at henr
          | typeError m => simp at henr
          | keyError m => simp at henr
          | indexError m => simp at henr
        | ok tt =>
          rw [hest] at henr
          simp only [Pure.pure, Except.pure] at henr
          cases hmg : dictGet kvs "map" with
          | none =>
            rw [hmg] at henr
            simp only [Pure.pure, Except.pure, Except.ok.injEq] at henr
            exact c10_finish kvs [] la lo g sm tt
              (if g.isNone = true then some fb else none) r (by rw [← henr])
          | some v =>
            rw [hmg] at henr
            cases v with
            | pynone => cases henr
            | pybool b => cases henr
            | pyint n => cases henr
            | pyfloat q => cases henr
            | pystr st => cases henr
            | pylist xs => cases henr
            | pydict mkvs =>
              simp only [Pure.pure, Except.pure, Except.ok.injEq] at henr
              exact c10_finish kvs mkvs la lo g sm tt
                (if g.isNone = true then some fb else none) r (by rw [← henr])

/-- Claim C10, witness for the amended theorem: a listing carrying only
a coordinates pair, enriched with the provider disabled, gets the map
key with latitude 25 and longitude 55 and keeps its coordinates entry
unchanged. -/
theorem c10_map_key_written_amended_witness :
    ∃ r, ([(⟨[("coordinates", PyVal.pylist [.pyfloat 55, .pyfloat 25]),
        ("map", PyVal.pydict [("latitude", .pyfloat 25), ("longitude", .pyfloat 55),
          ("geocoding", .pynone), ("static_map_url", .pynone),
          ("travel_times", .pylist []), ("fallback_message", .pystr "fb")])],
       none, none, [], some "fb", none⟩ : MapEnrichmentResult)] :
        List MapEnrichmentResult) = [r] ∧
      (∃ m, dictGet r.listing "map" = some (.pydict m) ∧
        dictGet m "latitude" = some (.pyfloat 25) ∧
        dictGet m "longitude" = some (.pyfloat 55) ∧
        (dictGet m "geocoding").isSome = true ∧
        (dictGet m "static_map_url").isSome = true ∧
        (dictGet m "travel_times").isSome = true ∧
        (dictGet m "fallback_message").isSome = true) ∧
      (∀ k, k ≠ "map" → dictGet r.listing k =
        dictGet [("coordinates", PyVal.pylist [.pyfloat 55, .pyfloat 25])] k) :=
  c10_map_key_written_amended disabledMapsSettings trivialNet [] "fb"
    [("coordinates", PyVal.pylist [.pyfloat 55, .pyfloat 25])] 25 55 _ rfl rfl

/-- Claim C9: a preference record whose bedrooms key holds 0 is never
complete — Python truthiness treats the present-but-zero count as
falsy — and the routing after the elicitation step selects End, not
Search. -/
theorem c9_zero_bedrooms_incomplete (p : Prefs) (h : p.bedrooms = some 0) :
    preferences_complete p = false ∧ next_after_elicitation p = "end" := by
  have hc : preferences_complete p = false := by
    simp [preferences_complete, truthyNatOpt, h]
  exact ⟨hc, by simp [next_after_elicitation, hc]⟩

/-- Claim C8: graph construction succeeds exactly when every requested
persona key is known (a default key or an override key); a selection
containing an unknown key is rejected with ValueError while the persona
map is being validated, before any node runs. -/
theorem c8_persona_selection_fail_fast (override_keys sel : List String) :
    (∃ ks, build_property_matcher_graph override_keys (some sel) = .ok ks) ↔
      ∀ k ∈ sel, k ∈ default_persona_keys ∨ k ∈ override_keys := by
  have hmem : ∀ k : String,
      ((default_persona_keys ++ override_keys.filter
        (fun k => !default_persona_keys.contains k)).contains k = true) ↔
      (k ∈ default_persona_keys ∨ k ∈ override_keys) := by
    intro k
    rw [List.elem_iff]
    simp only [List.mem_append, List.mem_filter, Bool.not_eq_true', ← Bool.not_eq_true,
      List.elem_iff]
    constructor
    · rintro (h | ⟨h, _⟩)
      · exact Or.inl h
      · exact Or.inr h
    · rintro (h | h)
      · exact Or.inl h
      · by_cases hd : k ∈ default_persona_keys
        · exact Or.inl hd
        · exact Or.inr ⟨h, by simpa using hd⟩
  cases sel with
  | nil => simp [build_property_matcher_graph, default_persona_keys]
  | cons a as =>
    by_cases hall : ∀ k ∈ a :: as, k ∈ default_persona_keys ∨ k ∈ override_keys
    · have hfil : (a :: as).filter (fun k =>
          !(default_persona_keys ++ override_keys.filter
            (fun k => !default_persona_keys.contains k)).contains k) = [] := by
        rw [List.filter_eq_nil_iff]
        intro k hk
        have hc := (hmem k).mpr (hall k hk)
        simp only [hc, Bool.not_true]
        exact Bool.false_ne_true
      constructor
      · intro _
        exact hall
      · intro _
        refine ⟨a :: as, ?_⟩
        rw [build_property_matcher_graph]
        simp only [hfil]
        rfl
    · push_neg at hall
      obtain ⟨k, hk, hkn⟩ := hall
      have hkn2 : ¬ (k ∈ default_persona_keys ∨ k ∈ override_keys) := fun hor =>
        hor.elim hkn.1 hkn.2
      have hc : (default_persona_keys ++ override_keys.filter
          (fun k => !default_persona_keys.contains k)).contains k = false := by
        rcases h : (default_persona_keys ++ override_keys.filter
            (fun k => !default_persona_keys.contains k)).contains k with _ | _
        · rfl
        · exact absurd ((hmem k).mp h) hkn2
      have hmemfil : k ∈ (a :: as).filter (fun k =>
          !(default_persona_keys ++ override_keys.filter
            (fun k => !default_persona_keys.contains k)).contains k) :=
        List.mem_filter.mpr ⟨hk, by simp only [hc, Bool.not_false]⟩
      have hfne : ((a :: as).filter (fun k =>
          !(default_persona_keys ++ override_keys.filter
            (fun k => !default_persona_keys.contains k)).contains k)).isEmpty = false := by
        rcases h : ((a :: as).filter (fun k =>
            !(default_persona_keys ++ override_keys.filter
              (fun k => !default_persona_keys.contains k)).contains k)).isEmpty with _ | _
        · rfl
        · rw [List.isEmpty_iff.mp h] at hmemfil
          cases hmemfil
      constructor
      · rintro ⟨ks, hks⟩
        rw [build_property_matcher_graph] at hks
        simp only [hfne, Bool.not_false, if_true] at hks
        cases hks
      · intro hall2
        exact absurd (hall2 k hk) hkn2

/-- Claim C9, witness: bedrooms 0 with a full budget and location. -/
theorem c9_zero_bedrooms_incomplete_witness :
    preferences_complete ⟨some 0, some 2500000, some ["downtown"], none⟩ = false ∧
    next_after_elicitation ⟨some 0, some 2500000, some ["downtown"], none⟩ = "end" :=
  c9_zero_bedrooms_incomplete ⟨some 0, some 2500000, some ["downtown"], none⟩ rfl

end BusinessBot






